import Mathlib

/-!
Shallow embedding of the simulation/detection core of
`src/tunnel_simulation.tsx` (the VRX tunnel traffic simulation).

Numbers that are JavaScript floating-point values in the source are
modelled as rationals (`ℚ`); every decimal literal used by the source
(0.2, 0.3, 0.5, 0.8, 30, 100, …) is exactly representable, so the
arithmetic of the embedded functions coincides with the source's on the
inputs the theorems talk about.  Impure reads (`Math.random()`,
`Date.now()`, `toLocaleTimeString()`) are passed in explicitly: random
draws as `ℚ` parameters in `[0,1)`, the millisecond clock as a function
from the number of `Date.now()` calls already made to the value returned,
and the timestamp string as a parameter.
-/

namespace TunnelSim

/-- Vehicle types, from the `Vehicle` interface: `'car' | 'truck' | 'emergency'`. -/
inductive VType where
  | car
  | truck
  | emergency
deriving DecidableEq, Repr

/-- Alert severities, from the `AIInsight` interface: `'info' | 'warning' | 'critical'`. -/
inductive Severity where
  | info
  | warning
  | critical
deriving DecidableEq, Repr

/-- The `Vehicle` interface of the source. -/
structure Vehicle where
  id : String
  lane : Nat
  position : ℚ
  speed : ℚ
  type : VType
  color : String
  temperature : ℚ
  detected : Bool
deriving DecidableEq, Repr

/-- The `AIInsight` interface of the source (an alert record). -/
structure AIInsight where
  id : String
  timestamp : String
  type : Severity
  message : String
  zone : String
deriving DecidableEq, Repr

/-- JavaScript `Math.round` on the values the source feeds it
(non-negative finite numbers): round half up, `⌊x + 1/2⌋`. -/
def mathRound (q : ℚ) : ℤ := ⌊q + 1/2⌋

/-- String shown for a vehicle type when interpolated into a message. -/
def typeName : VType → String
  | VType.car => "car"
  | VType.truck => "truck"
  | VType.emergency => "emergency"

/-- Function `getCameraZoneForPosition` (lines 121–126): the static partition of
tunnel positions into the four camera zones. -/
def getCameraZoneForPosition (position : ℚ) : String :=
  if position < 25 then "CAM-01"
  else if position < 50 then "CAM-02"
  else if position < 75 then "CAM-03"
  else "CAM-04"

/-- The alert id the source builds: `` `AI-${Date.now()}` ``. -/
def alertId (now : Nat) : String := s!"AI-{now}"

/-- The stall-rule message (line 96). -/
def stallMessage (t : String) (lane : Nat) (pos : ℤ) : String :=
  s!"Slow/stopped {t} detected in Lane {lane} at {pos}%"

/-- The heat-rule message (line 111). -/
def heatMessage (t : String) (temp : ℤ) (lane : Nat) : String :=
  s!"Hot spot detected: {t} showing {temp}°C in Lane {lane}"

/-- The log append `setAiInsights(prev => [insight, ...prev].slice(0, 5))`: front-insert
then truncate to the 5 newest (lines 100 and 115). -/
def appendInsight (i : AIInsight) (l : List AIInsight) : List AIInsight :=
  (i :: l).take 5

/-- The pieces of React state that `detectIncidents` reads and writes:
the alert log `aiInsights`, the global `incidentDetected` flag, and (a
modelling artifact of the impure clock) `calls`, the number of
`Date.now()` calls made so far in this pass. -/
structure DetectState where
  insights : List AIInsight
  incident : Bool
  calls : Nat
deriving DecidableEq, Repr

/-- The alert record the stall rule builds (lines 92–98). -/
def stallInsight (clock : Nat → Nat) (ts : String) (v : Vehicle) (st : DetectState) :
    AIInsight :=
  { id := alertId (clock st.calls)
    timestamp := ts
    type := Severity.warning
    message := stallMessage (typeName v.type) (v.lane + 1) (mathRound v.position)
    zone := getCameraZoneForPosition v.position }

/-- The alert record the heat rule builds (lines 107–113). -/
def heatInsight (clock : Nat → Nat) (ts : String) (v : Vehicle) (st : DetectState) :
    AIInsight :=
  { id := alertId (clock st.calls)
    timestamp := ts
    type := Severity.critical
    message := heatMessage (typeName v.type) (mathRound v.temperature) (v.lane + 1)
    zone := getCameraZoneForPosition v.position }

/-- The body of the `forEach` in `detectIncidents` (lines 86–117) for one
vehicle: first the stall rule (`speed < 0.2 && !detected`, severity
`warning`, also raises `incidentDetected`), then the heat rule
(`temperature > 30 && !detected`, severity `critical`, does **not**
touch `incidentDetected`).  The source mutates `vehicle.detected` in
place, so the heat rule re-reads the flag the stall rule may just have
set; here that mutation is the explicit pair-passing. -/
def detectVehicle (clock : Nat → Nat) (ts : String) (v : Vehicle) (st : DetectState) :
    Vehicle × DetectState :=
  let p :=
    if v.speed < 0.2 ∧ v.detected = false then
      ({ v with detected := true },
       { insights := appendInsight (stallInsight clock ts v st) st.insights
         incident := true
         calls := st.calls + 1 })
    else (v, st)
  if p.1.temperature > 30 ∧ p.1.detected = false then
    ({ p.1 with detected := true },
     { p.2 with insights := appendInsight (heatInsight clock ts p.1 p.2) p.2.insights
                calls := p.2.calls + 1 })
  else p

/-- Function `detectIncidents` (lines 85–118): the detection pass over the live
vehicle list, threading the alert log and incident flag through the
`forEach`. -/
def detectIncidents (clock : Nat → Nat) (ts : String) :
    List Vehicle → DetectState → List Vehicle × DetectState
  | [], st => ([], st)
  | v :: vs, st =>
    let p := detectVehicle clock ts v st
    let q := detectIncidents clock ts vs p.2
    (p.1 :: q.1, q.2)

/-- The weighted type list of `spawnVehicle` (line 66):
`['car', 'car', 'car', 'truck', 'car']`. -/
def vehicleTypes : List VType :=
  [VType.car, VType.car, VType.car, VType.truck, VType.car]

/-- The colour palette of `spawnVehicle` (line 68). -/
def colors : List String :=
  ["#3b82f6", "#ef4444", "#10b981", "#f59e0b", "#8b5cf6"]

/-- The vehicle id the source builds: `` `V-${vehicleIdCounterRef.current++}` ``. -/
def vehicleId (counter : Nat) : String := s!"V-{counter}"

/-- Function `spawnVehicle` (lines 65–82).  Each `Math.random()` call is a separate
parameter in `[0,1)`, in the order the source makes the calls: the type
draw, the lane draw, the speed draw, the colour draw, the temperature
draw.  `list[Math.floor(r * n)]` is modelled with `List.getD` (for
`r ∈ [0,1)` the index is in range, so the default is never taken). -/
def spawnVehicle (counter : Nat) (rType rLane rSpeed rColor rTemp : ℚ) : Vehicle :=
  let type := vehicleTypes.getD (⌊rType * 5⌋).toNat VType.car
  { id := vehicleId counter
    lane := (⌊rLane * 3⌋).toNat
    position := 0
    speed := if type = VType.truck then 0.3 + rSpeed * 0.2 else 0.5 + rSpeed * 0.3
    type := type
    color := colors.getD (⌊rColor * 5⌋).toNat "#3b82f6"
    temperature := 20 + rTemp * 15
    detected := false }

/-- One vehicle's update in the `animate` map (lines 141–146):
`position` advances by the **old** speed, and with the per-vehicle random
event `Math.random() > 0.995` (the `slow` flag) the speed is multiplied
by `0.3`. -/
def stepVehicle (v : Vehicle) (slow : Bool) : Vehicle :=
  { v with position := v.position + v.speed
           speed := if slow then v.speed * 0.3 else v.speed }

/-- The `.map` over the live vehicle list (lines 140–146), the `i`-th
vehicle receiving the `i`-th slow-down draw. -/
def mapVehicles (slow : Nat → Bool) : Nat → List Vehicle → List Vehicle
  | _, [] => []
  | i, v :: vs => stepVehicle v (slow i) :: mapVehicles slow (i + 1) vs

/-- The vehicle update of `animate` (lines 139–147): map every vehicle
forward, then `.filter(v => v.position < 100)`. -/
def updateVehicles (slow : Nat → Bool) (vs : List Vehicle) : List Vehicle :=
  (mapVehicles slow 0 vs).filter (fun v => decide (v.position < 100))

/-- Iterated motion of a single vehicle over successive ticks, one
slow-down draw per tick. -/
def runSteps (v : Vehicle) (slows : List Bool) : Vehicle :=
  slows.foldl stepVehicle v

/-- Air-quality update (line 156): `max(70, min(100, prev + (r - 0.5) * 2))`. -/
def airQualityStep (prev r : ℚ) : ℚ :=
  max 70 (min 100 (prev + (r - 0.5) * 2))

/-- Temperature update (line 157): `max(18, min(28, prev + (r - 0.5) * 0.5))`. -/
def temperatureStep (prev r : ℚ) : ℚ :=
  max 18 (min 28 (prev + (r - 0.5) * 0.5))

/-- Visibility update (line 158): `max(80, min(100, prev + (r - 0.5) * 1))`. -/
def visibilityStep (prev r : ℚ) : ℚ :=
  max 80 (min 100 (prev + (r - 0.5) * 1))

/-- A signal after a run of consecutive ticks: fold the per-tick update
over the list of random draws. -/
def runSignal (step : ℚ → ℚ → ℚ) (init : ℚ) (rs : List ℚ) : ℚ :=
  rs.foldl step init

/-- The React state of the component: every `useState` hook plus the two
mutable refs that `resetSimulation` and the tick logic touch. -/
structure SimState where
  isRunning : Bool
  vehicles : List Vehicle
  simulationTime : ℚ
  vehicleCount : Nat
  airQuality : ℚ
  temperature : ℚ
  visibility : ℚ
  ventilationLevel : ℚ
  activeCameraZone : Nat
  aiInsights : List AIInsight
  incidentDetected : Bool
  lastSpawnTime : ℚ
  vehicleIdCounter : Nat
deriving Repr

/-- Function `resetSimulation` (lines 181–193).  Note what it does *not* touch:
`activeCameraZone` and `lastSpawnTimeRef`. -/
def resetSimulation (s : SimState) : SimState :=
  { s with isRunning := false
           vehicles := []
           simulationTime := 0
           vehicleCount := 0
           airQuality := 85
           temperature := 22
           visibility := 95
           ventilationLevel := 60
           aiInsights := []
           incidentDetected := false
           vehicleIdCounter := 0 }

/-! ### Concrete sample data used by witnesses and counterexamples -/

/-- A plain car far from both rule thresholds. -/
def sampleCar : Vehicle :=
  { id := "V-0", lane := 0, position := 10, speed := 0.5, type := VType.car,
    color := "#3b82f6", temperature := 25, detected := false }

/-- A car slowed below the stall threshold. -/
def stalledCar : Vehicle := { sampleCar with speed := 0.1 }

/-- A car above the heat threshold but at normal speed. -/
def hotCar : Vehicle := { sampleCar with temperature := 32 }

/-- A car matching both rules at once. -/
def stalledHotCar : Vehicle := { sampleCar with speed := 0.1, temperature := 32 }

/-- The car of Scenario C: one tick from the tunnel exit. -/
def exitingCar : Vehicle := { sampleCar with position := 99.5, speed := 0.6 }

/-- The detection state at the start of a run: empty log, flag down,
no `Date.now()` call made yet. -/
def initialDetectState : DetectState := { insights := [], incident := false, calls := 0 }

/-! ### Helper lemmas -/

/-- Unfolding `detectVehicle` as three exclusive cases: the stall rule fires, else
the heat rule fires, else nothing happens.  When the stall rule fires it
sets `detected`, so the heat rule (which re-reads the flag) cannot fire
in the same pass. -/
lemma detectVehicle_eq (clock : Nat → Nat) (ts : String) (v : Vehicle) (st : DetectState) :
    detectVehicle clock ts v st =
      if v.speed < 0.2 ∧ v.detected = false then
        ({ v with detected := true },
         { insights := appendInsight (stallInsight clock ts v st) st.insights
           incident := true
           calls := st.calls + 1 })
      else if v.temperature > 30 ∧ v.detected = false then
        ({ v with detected := true },
         { st with insights := appendInsight (heatInsight clock ts v st) st.insights
                   calls := st.calls + 1 })
      else (v, st) := by
  by_cases hd : v.detected = false
  · by_cases hs : v.speed < 0.2
    · simp [detectVehicle, hs, hd]
    · by_cases ht : v.temperature > 30
      · simp [detectVehicle, hs, hd, ht]
      · simp [detectVehicle, hs, hd, ht]
  · simp [detectVehicle, hd]

/-- A vehicle whose `detected` flag is already set is untouched by the
detection pass, and nothing is logged for it. -/
lemma detectVehicle_of_detected (clock : Nat → Nat) (ts : String) (v : Vehicle)
    (st : DetectState) (h : v.detected = true) :
    detectVehicle clock ts v st = (v, st) := by
  rw [detectVehicle_eq]
  simp [h]

/-- The log-append of the source keeps at most 5 entries. -/
lemma length_appendInsight (i : AIInsight) (l : List AIInsight) :
    (appendInsight i l).length ≤ 5 := by
  simp only [appendInsight, List.length_take]
  omega

/-- One vehicle's detection step keeps the log at ≤ 5 entries. -/
lemma detectVehicle_insights_length (clock : Nat → Nat) (ts : String) (v : Vehicle)
    (st : DetectState) (h : st.insights.length ≤ 5) :
    ((detectVehicle clock ts v st).2).insights.length ≤ 5 := by
  rw [detectVehicle_eq]
  split_ifs <;> simp [length_appendInsight, h]

/-- A whole detection pass keeps the log at ≤ 5 entries. -/
lemma detectIncidents_insights_length (clock : Nat → Nat) (ts : String) :
    ∀ (vs : List Vehicle) (st : DetectState), st.insights.length ≤ 5 →
      ((detectIncidents clock ts vs st).2).insights.length ≤ 5 := by
  intro vs
  induction vs with
  | nil => intro st h; exact h
  | cons v vs ih =>
      intro st h
      exact ih _ (detectVehicle_insights_length clock ts v st h)

/-- One vehicle's detection step never lowers the incident flag. -/
lemma detectVehicle_incident_mono (clock : Nat → Nat) (ts : String) (v : Vehicle)
    (st : DetectState) (h : st.incident = true) :
    ((detectVehicle clock ts v st).2).incident = true := by
  rw [detectVehicle_eq]
  split_ifs <;> simp [h]

/-- A whole detection pass never lowers the incident flag. -/
lemma detectIncidents_incident_mono (clock : Nat → Nat) (ts : String) :
    ∀ (vs : List Vehicle) (st : DetectState), st.incident = true →
      ((detectIncidents clock ts vs st).2).incident = true := by
  intro vs
  induction vs with
  | nil => intro st h; exact h
  | cons v vs ih =>
      intro st h
      exact ih _ (detectVehicle_incident_mono clock ts v st h)

/-- A clamped update lands inside the clamp bounds. -/
lemma clamp_bounds (lo hi x : ℚ) (h : lo ≤ hi) :
    lo ≤ max lo (min hi x) ∧ max lo (min hi x) ≤ hi :=
  ⟨le_max_left _ _, max_le h (min_le_left _ _)⟩

/-- Folding a bounds-preserving update over any draw sequence stays in
bounds. -/
lemma runSignal_bounds (step : ℚ → ℚ → ℚ) (lo hi : ℚ)
    (hstep : ∀ x r, lo ≤ step x r ∧ step x r ≤ hi) :
    ∀ (rs : List ℚ) (init : ℚ), lo ≤ init → init ≤ hi →
      lo ≤ runSignal step init rs ∧ runSignal step init rs ≤ hi := by
  intro rs
  induction rs with
  | nil => intro init hl hh; exact ⟨hl, hh⟩
  | cons r rs ih =>
      intro init hl hh
      exact ih (step init r) (hstep init r).1 (hstep init r).2

/-! ### The claims -/

/-- C3: the Alert Log never holds more than 5 entries and appends are
most-recent-first: the source's `[insight, ...prev].slice(0, 5)` inserts
at the front and keeps the 5 newest, a whole detection pass keeps the log
at ≤ 5 entries, and six successive appends A,B,C,D,E,F leave exactly
[F,E,D,C,B], evicting A. -/
theorem alert_log_bounded_and_ordered :
    (∀ (a : AIInsight) (l : List AIInsight), (appendInsight a l).length ≤ 5) ∧
    (∀ (clock : Nat → Nat) (ts : String) (vs : List Vehicle) (st : DetectState),
        st.insights.length ≤ 5 →
        ((detectIncidents clock ts vs st).2).insights.length ≤ 5) ∧
    (∀ A B C D E F : AIInsight,
        appendInsight F (appendInsight E (appendInsight D (appendInsight C
          (appendInsight B (appendInsight A []))))) = [F, E, D, C, B]) :=
  ⟨length_appendInsight,
   fun clock ts vs st h => detectIncidents_insights_length clock ts vs st h,
   fun _ _ _ _ _ _ => rfl⟩

/-- Witness for C3 at a concrete input: the empty pass on an empty log. -/
theorem alert_log_bounded_and_ordered_witness :
    ((detectIncidents (fun _ => 0) "00:00:00" [] initialDetectState).2).insights.length ≤ 5 :=
  alert_log_bounded_and_ordered.2.1 (fun _ => 0) "00:00:00" [] initialDetectState
    (by decide)

/-- C6: `resetSimulation` returns every listed piece of state to its
initial value from any state: empty vehicle set, zero elapsed time, zero
vehicle count, air quality 85, temperature 22, visibility 95, empty
Alert Log, incident flag down, simulation stopped. -/
theorem resetSimulation_defaults (s : SimState) :
    (resetSimulation s).vehicles = [] ∧
    (resetSimulation s).simulationTime = 0 ∧
    (resetSimulation s).vehicleCount = 0 ∧
    (resetSimulation s).airQuality = 85 ∧
    (resetSimulation s).temperature = 22 ∧
    (resetSimulation s).visibility = 95 ∧
    (resetSimulation s).aiInsights = [] ∧
    (resetSimulation s).incidentDetected = false ∧
    (resetSimulation s).isRunning = false :=
  ⟨rfl, rfl, rfl, rfl, rfl, rfl, rfl, rfl, rfl⟩

/-- C7: starting from the defaults (85, 22, 95), after any sequence of
ticks each environmental signal is still inside its clamp bounds: air
quality in [70,100], temperature in [18,28], visibility in [80,100]. -/
theorem env_signals_within_bounds (rsA rsT rsV : List ℚ) :
    (70 ≤ runSignal airQualityStep 85 rsA ∧ runSignal airQualityStep 85 rsA ≤ 100) ∧
    (18 ≤ runSignal temperatureStep 22 rsT ∧ runSignal temperatureStep 22 rsT ≤ 28) ∧
    (80 ≤ runSignal visibilityStep 95 rsV ∧ runSignal visibilityStep 95 rsV ≤ 100) := by
  refine ⟨?_, ?_, ?_⟩
  · exact runSignal_bounds airQualityStep 70 100
      (fun x r => clamp_bounds 70 100 (x + (r - 0.5) * 2) (by norm_num))
      rsA 85 (by norm_num) (by norm_num)
  · exact runSignal_bounds temperatureStep 18 28
      (fun x r => clamp_bounds 18 28 (x + (r - 0.5) * 0.5) (by norm_num))
      rsT 22 (by norm_num) (by norm_num)
  · exact runSignal_bounds visibilityStep 80 100
      (fun x r => clamp_bounds 80 100 (x + (r - 0.5) * 1) (by norm_num))
      rsV 95 (by norm_num) (by norm_num)

/-- Everything the motion map produces is some input vehicle passed
through `stepVehicle`. -/
lemma mem_mapVehicles (slow : Nat → Bool) :
    ∀ (i : Nat) (vs : List Vehicle) (v : Vehicle), v ∈ mapVehicles slow i vs →
      ∃ u ∈ vs, ∃ b : Bool, v = stepVehicle u b := by
  intro i vs
  induction vs generalizing i with
  | nil => intro v hv; simp [mapVehicles] at hv
  | cons u us ih =>
      intro v hv
      simp only [mapVehicles, List.mem_cons] at hv
      rcases hv with h | h
      · exact ⟨u, List.mem_cons_self u us, slow i, h⟩
      · obtain ⟨w, hw, b, hb⟩ := ih (i + 1) v h
        exact ⟨w, List.mem_cons_of_mem u hw, b, hb⟩

/-- C4: after the motion update every surviving vehicle's position is
strictly below 100; survival is decided exactly by `position + speed`
(the position advance uses the pre-tick speed, so the random slow-down
drawn in the same tick cannot change it); and the Scenario C car at
position 99.5 with speed 0.6 is removed in one tick. -/
theorem vehicle_removal_at_100 :
    (∀ (slow : Nat → Bool) (vs : List Vehicle) (v : Vehicle),
        v ∈ updateVehicles slow vs → v.position < 100) ∧
    (∀ (v : Vehicle) (b : Bool),
        ((stepVehicle v b).position < 100 ↔ v.position + v.speed < 100)) ∧
    (∀ slow : Nat → Bool, updateVehicles slow [exitingCar] = []) := by
  refine ⟨?_, ?_, ?_⟩
  · intro slow vs v hv
    have h := List.mem_filter.mp hv
    exact of_decide_eq_true h.2
  · intro v b
    exact Iff.rfl
  · intro slow
    norm_num [updateVehicles, mapVehicles, List.filter_cons, stepVehicle, exitingCar,
      sampleCar]

/-- Witness for C4 at a concrete input: a car at position 10 with speed
0.5 survives the tick and its new position is below 100. -/
theorem vehicle_removal_at_100_witness :
    (stepVehicle sampleCar false).position < 100 :=
  vehicle_removal_at_100.1 (fun _ => false) [sampleCar] (stepVehicle sampleCar false)
    (by norm_num [updateVehicles, mapVehicles, List.filter_cons, stepVehicle, sampleCar])

/-- C8: one tick moves a vehicle from `position` to `position + speed`
(so with positive speed the position never decreases), the tick never
increases the speed, and every vehicle surviving the full update sits at
its old position advanced by its old speed. -/
theorem position_monotone_per_tick :
    (∀ (v : Vehicle) (b : Bool), (stepVehicle v b).position = v.position + v.speed) ∧
    (∀ (v : Vehicle) (b : Bool), 0 < v.speed → v.position ≤ (stepVehicle v b).position) ∧
    (∀ (v : Vehicle) (b : Bool), 0 ≤ v.speed → (stepVehicle v b).speed ≤ v.speed) ∧
    (∀ (slow : Nat → Bool) (vs : List Vehicle), (∀ u ∈ vs, 0 < u.speed) →
        ∀ v ∈ updateVehicles slow vs, ∃ u ∈ vs,
          v.position = u.position + u.speed ∧ u.position ≤ v.position) := by
  have hpos : ∀ (v : Vehicle) (b : Bool), (stepVehicle v b).position = v.position + v.speed :=
    fun v b => rfl
  refine ⟨hpos, ?_, ?_, ?_⟩
  · intro v b h
    rw [hpos]
    linarith
  · intro v b h
    by_cases hb : b = true
    · simp only [stepVehicle, hb, if_true]
      linarith
    · simp [stepVehicle, hb]
  · intro slow vs hspeed v hv
    have h := List.mem_filter.mp hv
    obtain ⟨u, hu, b, hb⟩ := mem_mapVehicles slow 0 vs v h.1
    refine ⟨u, hu, ?_, ?_⟩
    · rw [hb]; exact hpos u b
    · rw [hb, hpos]
      have := hspeed u hu
      linarith

/-- Witness for C8 at a concrete input: one tick does not move the
sample car backwards. -/
theorem position_monotone_per_tick_witness :
    sampleCar.position ≤ (stepVehicle sampleCar false).position :=
  position_monotone_per_tick.2.1 sampleCar false (by norm_num [sampleCar])

/-- C1: a never-detected vehicle matching both rules in one pass (speed
below 0.2 and temperature above 30) gets exactly one alert, the stall
rule's `warning`, front-inserted into the log; its `detected` flag
becomes true; a detected vehicle is inert in every detection pass, and
motion keeps the flag, so no `critical` alert is ever produced for it on
this or any later pass. -/
theorem detect_both_rules_single_warning (clock : Nat → Nat) (ts : String)
    (v : Vehicle) (st : DetectState)
    (hdet : v.detected = false) (hspeed : v.speed < 0.2) (_hheat : v.temperature > 30) :
    (detectVehicle clock ts v st).1.detected = true ∧
    (detectVehicle clock ts v st).2.insights =
      appendInsight (stallInsight clock ts v st) st.insights ∧
    (stallInsight clock ts v st).type = Severity.warning ∧
    (∀ (c : Nat → Nat) (t : String) (u : Vehicle) (s : DetectState),
        u.detected = true → detectVehicle c t u s = (u, s)) ∧
    (∀ b : Bool, (stepVehicle (detectVehicle clock ts v st).1 b).detected = true) := by
  refine ⟨?_, ?_, rfl, fun c t u s hu => detectVehicle_of_detected c t u s hu, ?_⟩
  · rw [detectVehicle_eq]
    simp [hdet, hspeed]
  · rw [detectVehicle_eq]
    simp [hdet, hspeed]
  · intro b
    rw [detectVehicle_eq]
    simp [hdet, hspeed, stepVehicle]

/-- Witness for C1 at a concrete input: the car with speed 0.1 and
temperature 32. -/
theorem detect_both_rules_single_warning_witness :
    (detectVehicle (fun _ => 0) "00:00:00" stalledHotCar initialDetectState).1.detected = true ∧
    (detectVehicle (fun _ => 0) "00:00:00" stalledHotCar initialDetectState).2.insights =
      appendInsight (stallInsight (fun _ => 0) "00:00:00" stalledHotCar initialDetectState)
        initialDetectState.insights ∧
    (stallInsight (fun _ => 0) "00:00:00" stalledHotCar initialDetectState).type =
      Severity.warning ∧
    (∀ (c : Nat → Nat) (t : String) (u : Vehicle) (s : DetectState),
        u.detected = true → detectVehicle c t u s = (u, s)) ∧
    (∀ b : Bool,
        (stepVehicle (detectVehicle (fun _ => 0) "00:00:00" stalledHotCar
          initialDetectState).1 b).detected = true) :=
  detect_both_rules_single_warning (fun _ => 0) "00:00:00" stalledHotCar initialDetectState
    rfl (by norm_num [stalledHotCar, sampleCar]) (by norm_num [stalledHotCar, sampleCar])

/-- C2 (amended): a stall-rule match sets `detected`, front-inserts an
alert whose zone covers the vehicle's position, and raises the incident
flag; a heat-rule match sets `detected` and front-inserts its alert but
leaves the incident flag exactly as it was; and once the flag is up no
detection pass ever lowers it. -/
theorem detect_match_effects (clock : Nat → Nat) (ts : String) (v : Vehicle)
    (st : DetectState) :
    ((v.speed < 0.2 ∧ v.detected = false) →
      (detectVehicle clock ts v st).1.detected = true ∧
      (detectVehicle clock ts v st).2.insights =
        appendInsight (stallInsight clock ts v st) st.insights ∧
      (stallInsight clock ts v st).zone = getCameraZoneForPosition v.position ∧
      (detectVehicle clock ts v st).2.incident = true) ∧
    ((¬ v.speed < 0.2) → v.temperature > 30 → v.detected = false →
      (detectVehicle clock ts v st).1.detected = true ∧
      (detectVehicle clock ts v st).2.insights =
        appendInsight (heatInsight clock ts v st) st.insights ∧
      (heatInsight clock ts v st).zone = getCameraZoneForPosition v.position ∧
      (detectVehicle clock ts v st).2.incident = st.incident) ∧
    (∀ vs : List Vehicle, st.incident = true →
      ((detectIncidents clock ts vs st).2).incident = true) := by
  refine ⟨?_, ?_, fun vs h => detectIncidents_incident_mono clock ts vs st h⟩
  · rintro ⟨hs, hd⟩
    refine ⟨?_, ?_, rfl, ?_⟩ <;> rw [detectVehicle_eq] <;> simp [hs, hd]
  · intro hs ht hd
    refine ⟨?_, ?_, rfl, ?_⟩ <;> rw [detectVehicle_eq] <;> simp [hs, hd, ht]

/-- Witness for C2 at a concrete input: the stall-rule branch on the car
with speed 0.1. -/
theorem detect_match_effects_witness :
    (detectVehicle (fun _ => 0) "00:00:00" stalledCar initialDetectState).1.detected = true ∧
    (detectVehicle (fun _ => 0) "00:00:00" stalledCar initialDetectState).2.insights =
      appendInsight (stallInsight (fun _ => 0) "00:00:00" stalledCar initialDetectState)
        initialDetectState.insights ∧
    (stallInsight (fun _ => 0) "00:00:00" stalledCar initialDetectState).zone =
      getCameraZoneForPosition stalledCar.position ∧
    (detectVehicle (fun _ => 0) "00:00:00" stalledCar initialDetectState).2.incident = true :=
  (detect_match_effects (fun _ => 0) "00:00:00" stalledCar initialDetectState).1
    (by norm_num [stalledCar, sampleCar])

/-- Counterexample to C2 as stated: the heat rule alone appends its alert
and sets `detected`, yet the global incident flag stays down — only the
stall rule raises it. -/
theorem heat_match_flag_not_raised_cex :
    (detectVehicle (fun _ => 0) "00:00:00" hotCar initialDetectState).1.detected = true ∧
    ((detectVehicle (fun _ => 0) "00:00:00" hotCar initialDetectState).2).insights.length
      = 1 ∧
    ((detectVehicle (fun _ => 0) "00:00:00" hotCar initialDetectState).2).incident
      = false := by
  refine ⟨?_, ?_, ?_⟩ <;>
    · rw [detectVehicle_eq]
      norm_num [hotCar, sampleCar, appendInsight, initialDetectState]

/-- C5 at the failing input (code bug): two stalled vehicles trigger in
the same pass while `Date.now()` stays at the same millisecond, and both
alerts get the id "AI-1000" — alert ids collide within one tick. -/
theorem alert_id_collision_same_tick :
    (((detectIncidents (fun _ => 1000) "00:00:00"
        [stalledCar, { stalledCar with id := "V-1" }] initialDetectState).2).insights.map
      AIInsight.id) = ["AI-1000", "AI-1000"] := by
  norm_num [detectIncidents, detectVehicle, stalledCar, sampleCar, initialDetectState,
    appendInsight, stallInsight, alertId]
  rfl

/-- Whatever index the type draw produces, the weighted list yields a car
or a truck (out-of-range indices take the `getD` default, a car). -/
lemma vehicleTypes_getD (k : Nat) :
    vehicleTypes.getD k VType.car = VType.car ∨
    vehicleTypes.getD k VType.car = VType.truck := by
  match k with
  | 0 => exact Or.inl rfl
  | 1 => exact Or.inl rfl
  | 2 => exact Or.inl rfl
  | 3 => exact Or.inr rfl
  | 4 => exact Or.inl rfl
  | n + 5 => exact Or.inl rfl

/-- C9: the weighted type list holds car with relative weight 4-in-5 and
truck the remainder; a spawned vehicle is a car or a truck, never an
emergency vehicle; truck speeds land in [0.3, 0.5) and car speeds in
[0.5, 0.8); and every spawn starts at position 0 with `detected` false. -/
theorem spawnVehicle_spec (counter : Nat) (rType rLane rSpeed rColor rTemp : ℚ)
    (h0 : 0 ≤ rSpeed) (h1 : rSpeed < 1) :
    (vehicleTypes.count VType.car = 4 ∧ vehicleTypes.count VType.truck = 1 ∧
      vehicleTypes.count VType.emergency = 0 ∧ vehicleTypes.length = 5) ∧
    ((spawnVehicle counter rType rLane rSpeed rColor rTemp).type = VType.car ∨
      (spawnVehicle counter rType rLane rSpeed rColor rTemp).type = VType.truck) ∧
    (spawnVehicle counter rType rLane rSpeed rColor rTemp).type ≠ VType.emergency ∧
    ((spawnVehicle counter rType rLane rSpeed rColor rTemp).type = VType.truck →
      0.3 ≤ (spawnVehicle counter rType rLane rSpeed rColor rTemp).speed ∧
      (spawnVehicle counter rType rLane rSpeed rColor rTemp).speed < 0.5) ∧
    ((spawnVehicle counter rType rLane rSpeed rColor rTemp).type = VType.car →
      0.5 ≤ (spawnVehicle counter rType rLane rSpeed rColor rTemp).speed ∧
      (spawnVehicle counter rType rLane rSpeed rColor rTemp).speed < 0.8) ∧
    (spawnVehicle counter rType rLane rSpeed rColor rTemp).position = 0 ∧
    (spawnVehicle counter rType rLane rSpeed rColor rTemp).detected = false := by
  have htype := vehicleTypes_getD (⌊rType * 5⌋).toNat
  have hT : (spawnVehicle counter rType rLane rSpeed rColor rTemp).type
      = vehicleTypes.getD (⌊rType * 5⌋).toNat VType.car := rfl
  have hS : (spawnVehicle counter rType rLane rSpeed rColor rTemp).speed
      = if vehicleTypes.getD (⌊rType * 5⌋).toNat VType.car = VType.truck
          then 0.3 + rSpeed * 0.2 else 0.5 + rSpeed * 0.3 := rfl
  have hmul1 : rSpeed * 0.2 < 0.2 := by
    have := mul_lt_mul_of_pos_right h1 (show (0:ℚ) < 0.2 by norm_num)
    linarith
  have hmul2 : rSpeed * 0.3 < 0.3 := by
    have := mul_lt_mul_of_pos_right h1 (show (0:ℚ) < 0.3 by norm_num)
    linarith
  have hmn1 : 0 ≤ rSpeed * 0.2 := mul_nonneg h0 (by norm_num)
  have hmn2 : 0 ≤ rSpeed * 0.3 := mul_nonneg h0 (by norm_num)
  refine ⟨⟨by decide, by decide, by decide, by decide⟩, ?_, ?_, ?_, ?_, rfl, rfl⟩
  · rw [hT]; exact htype
  · rw [hT]
    rcases htype with h | h <;> rw [h] <;> decide
  · intro ht
    rw [hT] at ht
    rw [hS, if_pos ht]
    constructor <;> linarith
  · intro ht
    rw [hT] at ht
    have hne : vehicleTypes.getD (⌊rType * 5⌋).toNat VType.car ≠ VType.truck := by
      rw [ht]; decide
    rw [hS, if_neg hne]
    constructor <;> linarith

/-- Witness for C9 at a concrete input: all random draws at 0. -/
theorem spawnVehicle_spec_witness :
    (vehicleTypes.count VType.car = 4 ∧ vehicleTypes.count VType.truck = 1 ∧
      vehicleTypes.count VType.emergency = 0 ∧ vehicleTypes.length = 5) ∧
    ((spawnVehicle 0 0 0 0 0 0).type = VType.car ∨
      (spawnVehicle 0 0 0 0 0 0).type = VType.truck) ∧
    (spawnVehicle 0 0 0 0 0 0).type ≠ VType.emergency ∧
    ((spawnVehicle 0 0 0 0 0 0).type = VType.truck →
      0.3 ≤ (spawnVehicle 0 0 0 0 0 0).speed ∧ (spawnVehicle 0 0 0 0 0 0).speed < 0.5) ∧
    ((spawnVehicle 0 0 0 0 0 0).type = VType.car →
      0.5 ≤ (spawnVehicle 0 0 0 0 0 0).speed ∧ (spawnVehicle 0 0 0 0 0 0).speed < 0.8) ∧
    (spawnVehicle 0 0 0 0 0 0).position = 0 ∧
    (spawnVehicle 0 0 0 0 0 0).detected = false :=
  spawnVehicle_spec 0 0 0 0 0 0 (le_refl 0) (by norm_num)

/-- A run of ticks in which the 0.5% slow-down event never fires leaves
the speed untouched. -/
lemma runSteps_speed_of_no_slow :
    ∀ slows : List Bool, (∀ b ∈ slows, b = false) →
      ∀ v : Vehicle, (runSteps v slows).speed = v.speed := by
  intro slows
  induction slows with
  | nil => intro _ v; rfl
  | cons b bs ih =>
      intro h v
      have hb : b = false := h b (List.mem_cons_self b bs)
      have hstep : runSteps v (b :: bs) = runSteps (stepVehicle v b) bs := rfl
      rw [hstep, ih (fun x hx => h x (List.mem_cons_of_mem b hx))]
      simp [stepVehicle, hb]

/-- C10: every spawned vehicle starts with speed at least 0.3, above the
stall threshold 0.2; through any run of ticks in which the random
slow-down never fires its speed stays at the spawn value, so the stall
rule's condition `speed < 0.2` cannot hold; hence a vehicle whose speed
has dropped below 0.2 has undergone at least one slow-down event. -/
theorem spawn_speed_above_stall_threshold (counter : Nat)
    (rType rLane rSpeed rColor rTemp : ℚ) (h0 : 0 ≤ rSpeed) :
    0.3 ≤ (spawnVehicle counter rType rLane rSpeed rColor rTemp).speed ∧
    (∀ slows : List Bool, (∀ b ∈ slows, b = false) →
      ¬ (runSteps (spawnVehicle counter rType rLane rSpeed rColor rTemp) slows).speed
          < 0.2) ∧
    (∀ slows : List Bool,
      (runSteps (spawnVehicle counter rType rLane rSpeed rColor rTemp) slows).speed < 0.2 →
      ∃ b ∈ slows, b = true) := by
  have hS : (spawnVehicle counter rType rLane rSpeed rColor rTemp).speed
      = if vehicleTypes.getD (⌊rType * 5⌋).toNat VType.car = VType.truck
          then 0.3 + rSpeed * 0.2 else 0.5 + rSpeed * 0.3 := rfl
  have hmn1 : 0 ≤ rSpeed * 0.2 := mul_nonneg h0 (by norm_num)
  have hmn2 : 0 ≤ rSpeed * 0.3 := mul_nonneg h0 (by norm_num)
  have hmin : 0.3 ≤ (spawnVehicle counter rType rLane rSpeed rColor rTemp).speed := by
    rw [hS]; split_ifs <;> linarith
  refine ⟨hmin, ?_, ?_⟩
  · intro slows hfalse
    rw [runSteps_speed_of_no_slow slows hfalse]
    linarith
  · intro slows hlt
    by_contra hnone
    push_neg at hnone
    have hfalse : ∀ b ∈ slows, b = false := by
      intro b hb
      cases b with
      | false => rfl
      | true => exact absurd rfl (hnone true hb)
    rw [runSteps_speed_of_no_slow slows hfalse] at hlt
    linarith

/-- Witness for C10 at a concrete input: all random draws at 0. -/
theorem spawn_speed_above_stall_threshold_witness :
    0.3 ≤ (spawnVehicle 0 0 0 0 0 0).speed ∧
    (∀ slows : List Bool, (∀ b ∈ slows, b = false) →
      ¬ (runSteps (spawnVehicle 0 0 0 0 0 0) slows).speed < 0.2) ∧
    (∀ slows : List Bool,
      (runSteps (spawnVehicle 0 0 0 0 0 0) slows).speed < 0.2 → ∃ b ∈ slows, b = true) :=
  spawn_speed_above_stall_threshold 0 0 0 0 0 0 (le_refl 0)

end TunnelSim
